import Mathlib

/-!
Shallow embedding of the tbcinema video-generation pipeline
(`src/services/veoApi.ts`, `src/components/OutputSection.tsx`,
`src/utils/indexedDB.ts`) together with proofs about the claims of its
specification.

Network and browser primitives (`fetch`, `FileReader`,
`URL.createObjectURL`, IndexedDB) are modelled as explicit oracles
(`RemoteStub`, `BackupEnv`, `RestoreEnv`, `LocalStoreEnv`); everything
observable — emitted progress statuses, sleeps, blob-store writes,
status-map updates — is returned as data.  All errors in the embedded
code are thrown as JavaScript `Error` values carrying a message string,
so thrown errors are modelled as `Except String`.
-/

namespace TbCinema

/-- JS `String.prototype.startsWith` (strings as their character lists). -/
def strStartsWith (s p : String) : Bool := decide (s.data.take p.data.length = p.data)

/-- JS `String.prototype.includes`: substring occurrence. -/
def strOccurs (s pat : String) : Bool := decide (pat.data <:+: s.data)

/-- JS `String.prototype.slice(0, n)`. -/
def jsSlice (s : String) (n : Nat) : String := ⟨s.data.take n⟩

/-- The `status` field of `VideoGenerationStatus` (src/types.ts and veoApi.ts). -/
inductive StatusKind where
  | idle
  | generating
  | polling
  | downloading
  | completed
  | error
deriving DecidableEq, Repr

/-- `VideoGenerationStatus` (veoApi.ts lines 28-33): the local progress
projection pushed to callers through the `onProgress` callback. -/
structure VideoGenerationStatus where
  status : StatusKind
  progress : Nat
  message : String
  operationName : Option String
deriving DecidableEq, Repr

/-- The `error` member of an `OperationResponse` (veoApi.ts lines 19-22). -/
structure RemoteErrorInfo where
  code : Int
  message : String
deriving DecidableEq, Repr

/-- A `{uri}` object, as probed by `resp?.videos?.[0]?.uri`. -/
structure VideoUriHolder where
  uri : Option String
deriving DecidableEq, Repr

/-- A `{video:{uri}}` object (`VideoGenerationResult`, veoApi.ts lines 10-14). -/
structure VideoWrapperObj where
  video : Option VideoUriHolder
deriving DecidableEq, Repr

/-- The `generateVideoResponse` envelope probed for Veo 3 responses. -/
structure GenerateVideoResponseObj where
  generatedSamples : Option (List VideoWrapperObj)
deriving DecidableEq, Repr

/-- The success payload of a completed operation.  The remote provider is
inconsistent about its shape, so the orchestrator probes all of these
optional members (veoApi.ts lines 280-285). -/
structure SuccessPayload where
  generateVideoResponse : Option GenerateVideoResponseObj
  generatedVideos : Option (List VideoWrapperObj)
  videos : Option (List VideoUriHolder)
deriving DecidableEq, Repr

/-- `OperationResponse` (veoApi.ts lines 16-26).  `generatedVideosTop`
models the untyped `(result as any).generatedVideos` probe target at the
top level of the payload. -/
structure OperationResponse where
  name : String
  done : Bool
  error : Option RemoteErrorInfo
  response : Option SuccessPayload
  generatedVideosTop : Option (List VideoWrapperObj)
deriving DecidableEq, Repr

/-- `Math.round((attempts / maxAttempts) * 80)` computed over the
rationals: round-half-up of `80 * attempts / maxAttempts`. -/
def jsRoundProgress (attempts maxAttempts : Nat) : Nat :=
  (160 * attempts + maxAttempts) / (2 * maxAttempts)

/-- `Math.min(Math.round((attempts / maxAttempts) * 80), 80)`
(veoApi.ts line 195). -/
def progressPercent (attempts maxAttempts : Nat) : Nat :=
  min (jsRoundProgress attempts maxAttempts) 80

/-- The substring the catch clause of `pollVideoGeneration` looks for to
decide whether an error is a transient status-check failure
(veoApi.ts line 228). -/
def statusCheckMarker : String := "상태 확인"

/-- The message thrown when the attempt ceiling is exhausted (line 236). -/
def timeoutMessage : String := "비디오 생성 타임아웃 (5분 초과)"

/-- The message of a `polling` progress event (line 221). -/
def pollingMessage (attempts maxAttempts : Nat) : String :=
  "비디오 생성 중... (" ++ toString attempts ++ "/" ++ toString maxAttempts ++ ")"

/-- The message of the `completed` event emitted inside the poll loop
(line 211). -/
def pollDoneMessage : String := "비디오 생성 완료!"

/-- The observable outcome of one `checkVideoOperation` call. -/
inductive PollOutcome where
  /-- `checkVideoOperation` threw an `Error` carrying this message
  (an HTTP failure of the poll request itself). -/
  | failure (message : String)
  /-- `checkVideoOperation` resolved with this operation state. -/
  | result (op : OperationResponse)
deriving Repr

/-- Everything observable about one run of the polling loop: the statuses
pushed through `onProgress`, the returned/thrown outcome, the final value
of the `attempts` counter, and the `setTimeout` delays awaited. -/
structure PollRun where
  statuses : List VideoGenerationStatus
  result : Except String OperationResponse
  attempts : Nat
  sleeps : List Nat
deriving Repr

/-- The `while (attempts < maxAttempts)` loop of `pollVideoGeneration`
(veoApi.ts lines 186-234).  `a` is the value of the `attempts` counter on
entry and `fuel` is `maxAttempts - a`, the number of remaining successes
of the loop guard.  Each iteration increments `attempts` and asks the
remote for the operation state:

* a thrown poll error whose message contains `'상태 확인'` is swallowed,
  the loop sleeps and retries; any other thrown error is rethrown;
* `done` with an `error` member first emits an `error` status and then
  throws the remote message — a throw that is itself subject to the same
  catch clause, so it too is swallowed if the message contains the marker;
* `done` without error emits a `completed` status and returns;
* not `done` emits a `polling` status, sleeps, and retries. -/
def pollGo (polls : Nat → PollOutcome) (operationName : String)
    (pollIntervalMs maxAttempts : Nat) : Nat → Nat → PollRun
  | a, 0 => ⟨[], .error timeoutMessage, a, []⟩
  | a, fuel + 1 =>
    match polls (a + 1) with
    | .failure m =>
      if strOccurs m statusCheckMarker then
        let k := pollGo polls operationName pollIntervalMs maxAttempts (a + 1) fuel
        ⟨k.statuses, k.result, k.attempts, pollIntervalMs :: k.sleeps⟩
      else
        ⟨[], .error m, a + 1, []⟩
    | .result r =>
      if r.done then
        match r.error with
        | some e =>
          let st : VideoGenerationStatus := ⟨.error, 0, e.message, some operationName⟩
          if strOccurs e.message statusCheckMarker then
            let k := pollGo polls operationName pollIntervalMs maxAttempts (a + 1) fuel
            ⟨st :: k.statuses, k.result, k.attempts, pollIntervalMs :: k.sleeps⟩
          else
            ⟨[st], .error e.message, a + 1, []⟩
        | none =>
          ⟨[⟨.completed, 100, pollDoneMessage, some operationName⟩], .ok r, a + 1, []⟩
      else
        let st : VideoGenerationStatus :=
          ⟨.polling, progressPercent (a + 1) maxAttempts,
            pollingMessage (a + 1) maxAttempts, some operationName⟩
        let k := pollGo polls operationName pollIntervalMs maxAttempts (a + 1) fuel
        ⟨st :: k.statuses, k.result, k.attempts, pollIntervalMs :: k.sleeps⟩

/-- `pollVideoGeneration` (veoApi.ts lines 179-237).  The `apiKey`
argument is absorbed into the `polls` oracle and the `onProgress`
callback is returned as the list of emitted statuses. -/
def pollVideoGeneration (polls : Nat → PollOutcome) (operationName : String)
    (pollIntervalMs maxAttempts : Nat) : PollRun :=
  pollGo polls operationName pollIntervalMs maxAttempts 0 maxAttempts

/-- The behaviour of the three stateless operation-client calls of
veoApi.ts against a given remote service:
`submit` is the outcome of `generateVideo` (the returned operation name,
or the thrown message), `polls k` the outcome of the `k`-th
`checkVideoOperation` call, and `download uri` the outcome of
`downloadVideo` (the blob's bytes, or the thrown message). -/
structure RemoteStub where
  submit : Except String String
  polls : Nat → PollOutcome
  download : String → Except String (List Nat)

/-- JS string truthiness of an optional-chaining result: `undefined` and
`''` are falsy. -/
def strTruthy : Option String → Bool
  | none => false
  | some s => decide (s ≠ "")

/-- JS `a || b` on (possibly undefined) strings. -/
def jsOrStr (a b : Option String) : Option String := if strTruthy a then a else b

/-- `resp?.generateVideoResponse?.generatedSamples?.[0]?.video?.uri`. -/
def probe1 (r : OperationResponse) : Option String :=
  (((((r.response.bind (·.generateVideoResponse)).bind
    (·.generatedSamples)).bind List.head?).bind (·.video)).bind (·.uri))

/-- `resp?.generatedVideos?.[0]?.video?.uri`. -/
def probe2 (r : OperationResponse) : Option String :=
  ((((r.response.bind (·.generatedVideos)).bind List.head?).bind (·.video)).bind (·.uri))

/-- `resp?.videos?.[0]?.uri`. -/
def probe3 (r : OperationResponse) : Option String :=
  (((r.response.bind (·.videos)).bind List.head?).bind (·.uri))

/-- `(result as any).generatedVideos?.[0]?.video?.uri`. -/
def probe4 (r : OperationResponse) : Option String :=
  (((r.generatedVideosTop.bind List.head?).bind (·.video)).bind (·.uri))

/-- The `videoUri` expression of `generateVideoComplete`
(veoApi.ts lines 281-285): the four probes chained with `||`. -/
def videoUriExpr (r : OperationResponse) : Option String :=
  jsOrStr (probe1 r) (jsOrStr (probe2 r) (jsOrStr (probe3 r) (probe4 r)))

/-- `if (!videoUri) throw` (line 287): the locator survives only when the
`||` chain produced a truthy (non-empty, defined) string. -/
def extractVideoUri (r : OperationResponse) : Option String :=
  match videoUriExpr r with
  | none => none
  | some s => if s = "" then none else some s

def hexDigit (n : Nat) : Char :=
  if n < 10 then Char.ofNat (48 + n) else Char.ofNat (87 + n)

/-- JSON string escaping as performed by `JSON.stringify`. -/
def escapeJsonChar (c : Char) : List Char :=
  if c = '"' then ['\\', '"']
  else if c = '\\' then ['\\', '\\']
  else if c = Char.ofNat 8 then ['\\', 'b']
  else if c = Char.ofNat 9 then ['\\', 't']
  else if c = Char.ofNat 10 then ['\\', 'n']
  else if c = Char.ofNat 12 then ['\\', 'f']
  else if c = Char.ofNat 13 then ['\\', 'r']
  else if c.toNat < 32 then
    ['\\', 'u', '0', '0', hexDigit (c.toNat / 16), hexDigit (c.toNat % 16)]
  else [c]

def jsonQuote (s : String) : String :=
  ⟨'"' :: (s.data.map escapeJsonChar).flatten ++ ['"']⟩

def stringifyUriHolder (v : VideoUriHolder) : String :=
  "\x7b" ++ (match v.uri with
    | none => ""
    | some u => "\"uri\":" ++ jsonQuote u) ++ "\x7d"

def stringifyWrapper (w : VideoWrapperObj) : String :=
  "\x7b" ++ (match w.video with
    | none => ""
    | some v => "\"video\":" ++ stringifyUriHolder v) ++ "\x7d"

def stringifyArr {α : Type} (f : α → String) (l : List α) : String :=
  "[" ++ String.intercalate "," (l.map f) ++ "]"

def stringifyPayload (p : SuccessPayload) : String :=
  let fields :=
    (match p.generateVideoResponse with
     | none => []
     | some g => ["\"generateVideoResponse\":\x7b" ++ (match g.generatedSamples with
         | none => ""
         | some l => "\"generatedSamples\":" ++ stringifyArr stringifyWrapper l) ++ "\x7d"]) ++
    (match p.generatedVideos with
     | none => []
     | some l => ["\"generatedVideos\":" ++ stringifyArr stringifyWrapper l]) ++
    (match p.videos with
     | none => []
     | some l => ["\"videos\":" ++ stringifyArr stringifyUriHolder l])
  "\x7b" ++ String.intercalate "," fields ++ "\x7d"

/-- `JSON.stringify(result)` for the modelled operation payload: members
in declaration order, absent (`undefined`) members omitted. -/
def stringifyOperation (r : OperationResponse) : String :=
  let fields :=
    ["\"name\":" ++ jsonQuote r.name,
     "\"done\":" ++ (if r.done then "true" else "false")] ++
    (match r.error with
     | none => []
     | some e => ["\"error\":\x7b\"code\":" ++ toString e.code ++
         ",\"message\":" ++ jsonQuote e.message ++ "\x7d"]) ++
    (match r.response with
     | none => []
     | some p => ["\"response\":" ++ stringifyPayload p]) ++
    (match r.generatedVideosTop with
     | none => []
     | some l => ["\"generatedVideos\":" ++ stringifyArr stringifyWrapper l])
  "\x7b" ++ String.intercalate "," fields ++ "\x7d"

/-- The message thrown when no probe yields a locator (veoApi.ts line
289): a fixed prefix plus the raw payload dump truncated to 500
characters by `.slice(0, 500)`. -/
def missingUriMessage (r : OperationResponse) : String :=
  "비디오 URI를 받지 못했습니다. 응답: " ++ jsSlice (stringifyOperation r) 500

/-- `generateVideoComplete` (veoApi.ts lines 242-310): submit, poll with
the default cadence (5000 ms, 60 attempts), extract the locator, fetch
the binary.  Returns the statuses pushed through `onProgress` and the
resolved blob bytes or the thrown message. -/
def generateVideoComplete (stub : RemoteStub) :
    List VideoGenerationStatus × Except String (List Nat) :=
  let s0 : List VideoGenerationStatus := [⟨.generating, 5, "비디오 생성 요청 중...", none⟩]
  match stub.submit with
  | .error e => (s0, .error e)
  | .ok operationName =>
    let s1 := s0 ++ [⟨.polling, 10, "생성 시작됨. 대기 중...", some operationName⟩]
    let run := pollVideoGeneration stub.polls operationName 5000 60
    let s2 := s1 ++ run.statuses
    match run.result with
    | .error e => (s2, .error e)
    | .ok result =>
      match extractVideoUri result with
      | none => (s2, .error (missingUriMessage result))
      | some videoUri =>
        let s3 := s2 ++ [⟨.downloading, 90, "비디오 다운로드 중...", some operationName⟩]
        match stub.download videoUri with
        | .error e => (s3, .error e)
        | .ok bytes =>
          (s3 ++ [⟨.completed, 100, "완료!", some operationName⟩], .ok bytes)

/-! ## OutputSection.tsx: per-shot generation, cancellation, backup/restore -/

/-- Minimal model of a `StoryboardShot` (src/types.ts). -/
structure StoryboardShot where
  kf_id : String
  visual_description : String
deriving DecidableEq, Repr

/-- Minimal model of `StoryboardData` (src/types.ts). -/
structure StoryboardData where
  title : String
  storyboard_sequence : List StoryboardShot
deriving DecidableEq, Repr

/-- The per-shot inputs read by `generateVideoForShot`
(OutputSection.tsx lines 160-173): the shot's `prompts?.video_gen`, the
generated start image for the index, and the API key.  The guards test
JS falsiness (`!prompt && !startImage`, `!apiKey`), so `none` models a
falsy prompt or start image (absent or empty string) and `""` models a
falsy API key. -/
structure ShotInputs where
  prompt : Option String
  startImage : Option String
  apiKey : String
deriving DecidableEq, Repr

/-- Browser/IndexedDB oracle for the success path of
`generateVideoForShot`: the outcome of `setBlob('video_<i>')`, of
`generateThumbnail`, of `setBlob('thumbnail_<i>')`, and the string
returned by `URL.createObjectURL(videoBlob)`. -/
structure LocalStoreEnv where
  setBlobVideo : Except String Unit
  thumbnail : Except String (List Nat)
  setBlobThumb : Except String Unit
  objectUrl : String

/-- Everything observable about one `generateVideoForShot` call for its
shot index: the statuses written to `videoGenerationStatus[index]` in
order, the successful blob-store writes `(id, bytes)` in order, and the
value recorded for the index by `onVideosUpdate` when it is called. -/
structure ShotRunResult where
  statusUpdates : List VideoGenerationStatus
  blobWrites : List (String × List Nat)
  videoUrlUpdate : Option String
deriving DecidableEq, Repr

/-- The initial status set before the orchestration starts
(OutputSection.tsx lines 176-179). -/
def preparingStatus : VideoGenerationStatus := ⟨.generating, 0, "비디오 생성 준비 중...", none⟩

/-- `generateVideoForShot` (OutputSection.tsx lines 160-248).  Returns
without any status update when neither a prompt nor a start image is
available, or when the API key is missing.  Otherwise it runs
`generateVideoComplete`, stores the blob under `video_<index>`,
best-effort derives and stores a thumbnail (failures swallowed), then
publishes an object URL and a final `completed` status; any error thrown
up to and including the video `setBlob` produces a final `error` status
carrying the thrown `Error`'s message (all thrown values in the embedded
code are `Error`s) and leaves the mapping untouched. -/
def generateVideoForShot (index : Nat) (inp : ShotInputs) (env : LocalStoreEnv)
    (stub : RemoteStub) : ShotRunResult :=
  if inp.prompt = none ∧ inp.startImage = none then ⟨[], [], none⟩
  else if inp.apiKey = "" then ⟨[], [], none⟩
  else
    let run := generateVideoComplete stub
    match run.2 with
    | .error e => ⟨preparingStatus :: run.1 ++ [⟨.error, 0, e, none⟩], [], none⟩
    | .ok bytes =>
      match env.setBlobVideo with
      | .error e => ⟨preparingStatus :: run.1 ++ [⟨.error, 0, e, none⟩], [], none⟩
      | .ok _ =>
        let thumbWrites : List (String × List Nat) :=
          match env.thumbnail with
          | .error _ => []
          | .ok tb =>
            match env.setBlobThumb with
            | .error _ => []
            | .ok _ => [("thumbnail_" ++ toString index, tb)]
        ⟨preparingStatus :: run.1 ++ [⟨.completed, 100, "완료!", none⟩],
          ("video_" ++ toString index, bytes) :: thumbWrites,
          some env.objectUrl⟩

/-- The status written by `cancelVideoGeneration`
(OutputSection.tsx lines 251-258). -/
def cancelStatus : VideoGenerationStatus := ⟨.idle, 0, "", none⟩

/-- `cancelVideoGeneration` (OutputSection.tsx lines 251-258): a pure
update of the local `videoGenerationStatus` map — its body touches only
that map and the toast, so it has no `RemoteStub` argument at all. -/
def cancelVideoGeneration (m : Nat → VideoGenerationStatus) (index : Nat) :
    Nat → VideoGenerationStatus :=
  fun i => if i = index then cancelStatus else m i

/-- An event affecting one shot index's entry of the
`videoGenerationStatus` map: either a `setVideoGenerationStatus` write
coming from an in-flight run (the `onProgress` callback at lines 208-210
and the handlers at 176-179, 229-232, 238-245), or a
`cancelVideoGeneration` call. -/
inductive JobEvent where
  | statusUpdate (s : VideoGenerationStatus)
  | cancel
deriving DecidableEq, Repr

/-- Both kinds of event are plain last-writer-wins overwrites of the
index's map entry. -/
def applyJobEvent (_cur : VideoGenerationStatus) : JobEvent → VideoGenerationStatus
  | .statusUpdate s => s
  | .cancel => cancelStatus

def applyJobEvents (init : VideoGenerationStatus) (evs : List JobEvent) :
    VideoGenerationStatus :=
  evs.foldl applyJobEvent init

/-- The event sequence seen by a shot's map entry when a run emitting
`run` is interrupted by `cancelVideoGeneration` after its first `k`
updates: nothing in the code stops the remaining updates (the
`abortControllersRef` of OutputSection.tsx line 50 is never used), so
they are still applied afterwards. -/
def interruptedRun (run : List VideoGenerationStatus) (k : Nat) : List JobEvent :=
  (run.take k).map .statusUpdate ++ [.cancel] ++ (run.drop k).map .statusUpdate

/-! ### Backup/restore codec -/

def b64Alphabet : List Char :=
  "ABCDEFGHIJKLMNOPQRSTUVWXYZabcdefghijklmnopqrstuvwxyz0123456789+/".data

def b64Char (n : Nat) : Char := b64Alphabet.getD n 'A'

/-- Standard base64 of a byte list, 3 bytes to 4 characters with `=`
padding: the encoding used by `FileReader.readAsDataURL`. -/
def base64EncodeChunks : List Nat → List Char
  | [] => []
  | [a] => [b64Char (a / 4 % 64), b64Char (a % 4 * 16), '=', '=']
  | [a, b] => [b64Char (a / 4 % 64), b64Char (a % 4 * 16 + b / 16 % 16),
      b64Char (b % 16 * 4), '=']
  | a :: b :: c :: rest =>
    b64Char (a / 4 % 64) :: b64Char (a % 4 * 16 + b / 16 % 16) ::
    b64Char (b % 16 * 4 + c / 64 % 4) :: b64Char (c % 64) :: base64EncodeChunks rest

def base64Encode (bytes : List Nat) : String := ⟨base64EncodeChunks bytes⟩

def b64Index (c : Char) : Option Nat := b64Alphabet.findIdx? (· == c)

def b64DecodeChunks : List Nat → Option (List Nat)
  | [] => some []
  | [_] => none
  | [a, b] => some [a % 64 * 4 + b % 64 / 16]
  | [a, b, c] => some [a % 64 * 4 + b % 64 / 16, b % 16 * 16 + c % 64 / 4]
  | a :: b :: c :: d :: rest =>
    (b64DecodeChunks rest).map (fun t =>
      (a % 64 * 4 + b % 64 / 16) :: (b % 16 * 16 + c % 64 / 4) :: (c % 4 * 64 + d % 64) :: t)

def isJsWhitespace (c : Char) : Bool :=
  c == ' ' || c == '\t' || c == '\n' || c == '\x0c' || c == '\r'

def dropOneTrailingEq (l : List Char) : List Char :=
  if l.getLast? = some '=' then l.dropLast else l

/-- WHATWG forgiving-base64 decode — the semantics of the platform
`atob`; `none` models the thrown `InvalidCharacterError`. -/
def atob (s : String) : Option (List Nat) :=
  let cs := s.data.filter (fun c => !isJsWhitespace c)
  let cs := if cs.length % 4 = 0 then dropOneTrailingEq (dropOneTrailingEq cs) else cs
  if cs.length % 4 = 1 then none
  else (cs.mapM b64Index).bind b64DecodeChunks

/-- Browser oracle for `blobUrlToBase64` (OutputSection.tsx lines
455-491): the `fetch(blobUrl)` + `response.blob()` +
`FileReader.readAsDataURL` chain, returning the blob's mime type and
bytes on success and `none` on any failure (`!response.ok`, a fetch
exception, or a `FileReader` error — all of which make the function
resolve `null`). -/
structure BackupEnv where
  fetchBlob : String → Option (String × List Nat)
  nowIso : String

/-- `blobUrlToBase64` (OutputSection.tsx lines 455-491): `data:` URLs and
plain (non-`blob:`) URLs pass through unchanged; a `blob:` URL is fetched
and re-encoded as a data URI, with `none` on conversion failure. -/
def blobUrlToBase64 (env : BackupEnv) (blobUrl : String) : Option String :=
  if strStartsWith blobUrl "data:" then some blobUrl
  else if strStartsWith blobUrl "blob:" then
    match env.fetchBlob blobUrl with
    | none => none
    | some (mime, bytes) => some ("data:" ++ mime ++ ";base64," ++ base64Encode bytes)
  else some blobUrl

/-- The serialized backup document (OutputSection.tsx lines 498-504 and
532-538). -/
structure BackupDocument where
  version : String
  timestamp : String
  data : StoryboardData
  generatedImages : List (Nat × String)
  videoBase64 : List (Nat × String)
deriving DecidableEq, Repr

/-- `handleBackupData` (OutputSection.tsx lines 494-545): with no videos
the document carries an empty `videoBase64`; otherwise every video URL is
converted by `blobUrlToBase64` and entries whose conversion fails are
skipped. -/
def handleBackupData (env : BackupEnv) (data : StoryboardData)
    (generatedImages videoUrls : List (Nat × String)) : BackupDocument :=
  if videoUrls.length = 0 then ⟨"1.1", env.nowIso, data, generatedImages, []⟩
  else
    ⟨"1.1", env.nowIso, data, generatedImages,
      videoUrls.filterMap (fun kv =>
        (blobUrlToBase64 env kv.2).map (fun b => (kv.1, b)))⟩

/-- Browser oracle for `base64ToBlobUrl`: `URL.createObjectURL` applied
to the `Blob` built from the decoded bytes and mime type. -/
structure RestoreEnv where
  createObjectUrl : String → List Nat → String

/-- The first match of the regex `/data:([^;]+)/` against the data-URI
header: scan for an occurrence of `data:` followed by at least one
non-`;` character and capture that run. -/
def mimeFromHeader : List Char → Option String
  | [] => none
  | c :: t =>
    let cand := ((c :: t).drop 5).takeWhile (fun x => x ≠ ';')
    if (c :: t).take 5 = "data:".data ∧ cand ≠ [] then some ⟨cand⟩
    else mimeFromHeader t

/-- `base64ToBlobUrl` (OutputSection.tsx lines 548-588): `blob:` URLs are
unrestorable and yield `''`; `http(s)` URLs pass through; other
non-`data:` strings yield `''`; a data URI is split at the first comma,
its payload decoded with `atob` (a decode error is caught and yields
`''`) and wrapped into a fresh object URL. -/
def base64ToBlobUrl (env : RestoreEnv) (base64 : String) : String :=
  if strStartsWith base64 "blob:" then ""
  else if strStartsWith base64 "http://" || strStartsWith base64 "https://" then base64
  else if !strStartsWith base64 "data:" then ""
  else
    match (base64.splitOn ",").get? 1 with
    | none => ""
    | some dat =>
      match atob dat with
      | none => ""
      | some bytes =>
        let header := ((base64.splitOn ",").headD "").data
        let mimeType := (mimeFromHeader header).getD "video/mp4"
        env.createObjectUrl mimeType bytes

/-- The `data` member of a parsed backup file: present/absent members
model JS truthiness of the parsed JSON. -/
structure ProjectDataJson where
  storyboard_sequence : Option (List StoryboardShot)
deriving DecidableEq, Repr

/-- A parsed backup file as read by `handleRestoreData`. -/
structure RestoreDocument where
  data : Option ProjectDataJson
  generatedImages : Option (List (Nat × String))
  videoBase64 : Option (List (Nat × String))
  videoUrls : Option (List (Nat × String))
deriving DecidableEq, Repr

/-- The state mutations performed by a successful restore: the image map
handed to `onImagesUpdate` (when `generatedImages` is present) and the
video map handed to `onVideosUpdate` (only when at least one entry was
restorable), plus the restored-entry count reported in the toast. -/
structure RestoreResult where
  imagesUpdate : Option (List (Nat × String))
  videosUpdate : Option (List (Nat × String))
  restoredCount : Nat
deriving DecidableEq, Repr

def invalidBackupMessage : String := "유효하지 않은 백업 파일입니다."

/-- `handleRestoreData` (OutputSection.tsx lines 591-658): fail before
any mutation unless `data.storyboard_sequence` is present; restore images
when present; take the video source from `videoBase64`, falling back to
the legacy `videoUrls` member; convert each entry with `base64ToBlobUrl`,
dropping entries that convert to `''`, and publish the converted map only
when at least one entry survived. -/
def handleRestoreData (env : RestoreEnv) (doc : RestoreDocument) :
    Except String RestoreResult :=
  match doc.data with
  | none => .error invalidBackupMessage
  | some d =>
    match d.storyboard_sequence with
    | none => .error invalidBackupMessage
    | some _ =>
      let imagesUpdate := doc.generatedImages
      let videoSource :=
        match doc.videoBase64 with
        | some m => some m
        | none => doc.videoUrls
      match videoSource with
      | none => .ok ⟨imagesUpdate, none, 0⟩
      | some m =>
        if m.length = 0 then .ok ⟨imagesUpdate, none, 0⟩
        else
          let restored := m.filterMap (fun kv =>
            let b := base64ToBlobUrl env kv.2
            if b = "" then none else some (kv.1, b))
          .ok ⟨imagesUpdate, if restored.length = 0 then none else some restored,
            restored.length⟩

/-! ## Shared concrete fixtures -/

/-- A poll answer that is not yet done. -/
def opNotDone : OperationResponse := ⟨"op1", false, none, none, none⟩

/-- The spec's scenario answer: done, with
`response.generatedVideos[0].video.uri = "https://x/y.mp4"`. -/
def opDoneCat : OperationResponse :=
  ⟨"op1", true, none, some ⟨none, some [⟨some ⟨some "https://x/y.mp4"⟩⟩], none⟩, none⟩

/-- The spec's scenario stub: submit returns `op1`, the first poll is not
done, the second is done with a `generatedVideos` payload, and the
download of its locator yields the bytes `[1, 2, 3, 4]`. -/
def stubScenario : RemoteStub :=
  ⟨.ok "op1", fun k => if k = 1 then .result opNotDone else .result opDoneCat,
   fun u => if u = "https://x/y.mp4" then .ok [1, 2, 3, 4]
     else .error "비디오 다운로드 실패: 404"⟩

/-- Inputs with a prompt and an API key present. -/
def inpPrompt : ShotInputs := ⟨some "a cat", none, "key"⟩

/-- A local-store environment where every write succeeds. -/
def envOk : LocalStoreEnv := ⟨.ok (), .ok [9], .ok (), "blob:video0"⟩

/-- A restore environment minting a fixed fresh object URL. -/
def renvFixed : RestoreEnv := ⟨fun _ _ => "blob:restored0"⟩

/-- A backup environment whose blob fetches always succeed. -/
def benvOk : BackupEnv := ⟨fun _ => some ("video/mp4", [0, 1]), "2026-10-11T00:00:00.000Z"⟩

def shotFixture : StoryboardShot := ⟨"1", "a cat"⟩

def dataFixture : StoryboardData := ⟨"T", [shotFixture]⟩

/-! ## Step equations for the polling loop -/

theorem pollGo_zero (polls : Nat → PollOutcome) (op : String) (iv maxA a : Nat) :
    pollGo polls op iv maxA a 0 = ⟨[], .error timeoutMessage, a, []⟩ := rfl

theorem pollGo_failure_swallow (polls : Nat → PollOutcome) (op : String)
    (iv maxA a fuel : Nat) (m : String) (h : polls (a + 1) = .failure m)
    (hm : strOccurs m statusCheckMarker = true) :
    pollGo polls op iv maxA a (fuel + 1) =
      ⟨(pollGo polls op iv maxA (a + 1) fuel).statuses,
       (pollGo polls op iv maxA (a + 1) fuel).result,
       (pollGo polls op iv maxA (a + 1) fuel).attempts,
       iv :: (pollGo polls op iv maxA (a + 1) fuel).sleeps⟩ := by
  simp only [pollGo, h, hm, if_true]

theorem pollGo_failure_rethrow (polls : Nat → PollOutcome) (op : String)
    (iv maxA a fuel : Nat) (m : String) (h : polls (a + 1) = .failure m)
    (hm : strOccurs m statusCheckMarker = false) :
    pollGo polls op iv maxA a (fuel + 1) = ⟨[], .error m, a + 1, []⟩ := by
  simp only [pollGo, h, hm, Bool.false_eq_true, if_false]

theorem pollGo_done_error_rethrow (polls : Nat → PollOutcome) (op : String)
    (iv maxA a fuel : Nat) (r : OperationResponse) (e : RemoteErrorInfo)
    (h : polls (a + 1) = .result r) (hd : r.done = true) (he : r.error = some e)
    (hm : strOccurs e.message statusCheckMarker = false) :
    pollGo polls op iv maxA a (fuel + 1) =
      ⟨[⟨.error, 0, e.message, some op⟩], .error e.message, a + 1, []⟩ := by
  simp only [pollGo, h, hd, he, hm, Bool.false_eq_true, if_false, if_true]

theorem pollGo_done_error_swallow (polls : Nat → PollOutcome) (op : String)
    (iv maxA a fuel : Nat) (r : OperationResponse) (e : RemoteErrorInfo)
    (h : polls (a + 1) = .result r) (hd : r.done = true) (he : r.error = some e)
    (hm : strOccurs e.message statusCheckMarker = true) :
    pollGo polls op iv maxA a (fuel + 1) =
      ⟨⟨.error, 0, e.message, some op⟩ :: (pollGo polls op iv maxA (a + 1) fuel).statuses,
       (pollGo polls op iv maxA (a + 1) fuel).result,
       (pollGo polls op iv maxA (a + 1) fuel).attempts,
       iv :: (pollGo polls op iv maxA (a + 1) fuel).sleeps⟩ := by
  simp only [pollGo, h, hd, he, hm, if_true]

theorem pollGo_done_ok (polls : Nat → PollOutcome) (op : String)
    (iv maxA a fuel : Nat) (r : OperationResponse)
    (h : polls (a + 1) = .result r) (hd : r.done = true) (he : r.error = none) :
    pollGo polls op iv maxA a (fuel + 1) =
      ⟨[⟨.completed, 100, pollDoneMessage, some op⟩], .ok r, a + 1, []⟩ := by
  simp only [pollGo, h, hd, he, if_true]

theorem pollGo_notDone (polls : Nat → PollOutcome) (op : String)
    (iv maxA a fuel : Nat) (r : OperationResponse)
    (h : polls (a + 1) = .result r) (hd : r.done = false) :
    pollGo polls op iv maxA a (fuel + 1) =
      ⟨⟨.polling, progressPercent (a + 1) maxA, pollingMessage (a + 1) maxA, some op⟩ ::
         (pollGo polls op iv maxA (a + 1) fuel).statuses,
       (pollGo polls op iv maxA (a + 1) fuel).result,
       (pollGo polls op iv maxA (a + 1) fuel).attempts,
       iv :: (pollGo polls op iv maxA (a + 1) fuel).sleeps⟩ := by
  simp only [pollGo, h, hd, Bool.false_eq_true, if_false]

/-! ## Invariants of the polling loop -/

/-- The progress values of the `polling` statuses of a status list, in
emission order. -/
def pollingProgressList (l : List VideoGenerationStatus) : List Nat :=
  (l.filter (fun s => decide (s.status = StatusKind.polling))).map
    VideoGenerationStatus.progress

theorem pollingProgressList_cons_polling (p : Nat) (msg : String)
    (opn : Option String) (l : List VideoGenerationStatus) :
    pollingProgressList (⟨.polling, p, msg, opn⟩ :: l) = p :: pollingProgressList l := by
  simp [pollingProgressList]

theorem pollingProgressList_cons_other (st : VideoGenerationStatus)
    (l : List VideoGenerationStatus) (h : ¬ st.status = StatusKind.polling) :
    pollingProgressList (st :: l) = pollingProgressList l := by
  simp [pollingProgressList, List.filter_cons, h]

theorem progressPercent_mono {a b : Nat} (h : a ≤ b) (m : Nat) :
    progressPercent a m ≤ progressPercent b m := by
  unfold progressPercent jsRoundProgress
  exact min_le_min (Nat.div_le_div_right (by omega)) le_rfl

theorem pollGo_polling_pairwise (polls : Nat → PollOutcome) (op : String)
    (iv maxA : Nat) :
    ∀ fuel a,
      (∀ x ∈ pollingProgressList (pollGo polls op iv maxA a fuel).statuses,
         progressPercent (a + 1) maxA ≤ x) ∧
      List.Pairwise (· ≤ ·) (pollingProgressList (pollGo polls op iv maxA a fuel).statuses) := by
  intro fuel
  induction fuel with
  | zero => intro a; simp [pollGo_zero, pollingProgressList]
  | succ fuel ih =>
    intro a
    have step : progressPercent (a + 1) maxA ≤ progressPercent (a + 1 + 1) maxA :=
      progressPercent_mono (by omega) maxA
    cases h : polls (a + 1) with
    | failure m =>
      cases hm : strOccurs m statusCheckMarker with
      | true =>
        rw [pollGo_failure_swallow polls op iv maxA a fuel m h hm]
        exact ⟨fun x hx => le_trans step ((ih (a + 1)).1 x hx), (ih (a + 1)).2⟩
      | false =>
        rw [pollGo_failure_rethrow polls op iv maxA a fuel m h hm]
        simp [pollingProgressList]
    | result r =>
      cases hd : r.done with
      | true =>
        cases he : r.error with
        | some e =>
          cases hm : strOccurs e.message statusCheckMarker with
          | true =>
            rw [pollGo_done_error_swallow polls op iv maxA a fuel r e h hd he hm]
            rw [pollingProgressList_cons_other _ _ (by simp)]
            exact ⟨fun x hx => le_trans step ((ih (a + 1)).1 x hx), (ih (a + 1)).2⟩
          | false =>
            rw [pollGo_done_error_rethrow polls op iv maxA a fuel r e h hd he hm]
            simp [pollingProgressList]
        | none =>
          rw [pollGo_done_ok polls op iv maxA a fuel r h hd he]
          simp [pollingProgressList]
      | false =>
        rw [pollGo_notDone polls op iv maxA a fuel r h hd]
        rw [pollingProgressList_cons_polling]
        constructor
        · intro x hx
          rcases List.mem_cons.mp hx with hx | hx
          · exact le_of_eq hx.symm
          · exact le_trans step ((ih (a + 1)).1 x hx)
        · rw [List.pairwise_cons]
          exact ⟨fun x hx => le_trans step ((ih (a + 1)).1 x hx), (ih (a + 1)).2⟩

theorem pollGo_attempts_le (polls : Nat → PollOutcome) (op : String)
    (iv maxA : Nat) :
    ∀ fuel a, (pollGo polls op iv maxA a fuel).attempts ≤ a + fuel := by
  intro fuel
  induction fuel with
  | zero => intro a; simp [pollGo_zero]
  | succ fuel ih =>
    intro a
    cases h : polls (a + 1) with
    | failure m =>
      cases hm : strOccurs m statusCheckMarker with
      | true =>
        rw [pollGo_failure_swallow polls op iv maxA a fuel m h hm]
        calc (pollGo polls op iv maxA (a + 1) fuel).attempts
            ≤ a + 1 + fuel := ih (a + 1)
          _ ≤ a + (fuel + 1) := by omega
      | false =>
        rw [pollGo_failure_rethrow polls op iv maxA a fuel m h hm]; dsimp only; omega
    | result r =>
      cases hd : r.done with
      | true =>
        cases he : r.error with
        | some e =>
          cases hm : strOccurs e.message statusCheckMarker with
          | true =>
            rw [pollGo_done_error_swallow polls op iv maxA a fuel r e h hd he hm]
            calc (pollGo polls op iv maxA (a + 1) fuel).attempts
                ≤ a + 1 + fuel := ih (a + 1)
              _ ≤ a + (fuel + 1) := by omega
          | false =>
            rw [pollGo_done_error_rethrow polls op iv maxA a fuel r e h hd he hm]
            dsimp only; omega
        | none =>
          rw [pollGo_done_ok polls op iv maxA a fuel r h hd he]; dsimp only; omega
      | false =>
        rw [pollGo_notDone polls op iv maxA a fuel r h hd]
        calc (pollGo polls op iv maxA (a + 1) fuel).attempts
            ≤ a + 1 + fuel := ih (a + 1)
          _ ≤ a + (fuel + 1) := by omega

theorem pollGo_ok_done (polls : Nat → PollOutcome) (op : String)
    (iv maxA : Nat) :
    ∀ fuel a r, (pollGo polls op iv maxA a fuel).result = .ok r → r.done = true := by
  intro fuel
  induction fuel with
  | zero => intro a r hr; simp [pollGo_zero] at hr
  | succ fuel ih =>
    intro a r hr
    cases h : polls (a + 1) with
    | failure m =>
      cases hm : strOccurs m statusCheckMarker with
      | true =>
        rw [pollGo_failure_swallow polls op iv maxA a fuel m h hm] at hr
        exact ih (a + 1) r hr
      | false =>
        rw [pollGo_failure_rethrow polls op iv maxA a fuel m h hm] at hr
        simp at hr
    | result r0 =>
      cases hd : r0.done with
      | true =>
        cases he : r0.error with
        | some e =>
          cases hm : strOccurs e.message statusCheckMarker with
          | true =>
            rw [pollGo_done_error_swallow polls op iv maxA a fuel r0 e h hd he hm] at hr
            exact ih (a + 1) r hr
          | false =>
            rw [pollGo_done_error_rethrow polls op iv maxA a fuel r0 e h hd he hm] at hr
            simp at hr
        | none =>
          rw [pollGo_done_ok polls op iv maxA a fuel r0 h hd he] at hr
          simp at hr
          exact hr ▸ hd
      | false =>
        rw [pollGo_notDone polls op iv maxA a fuel r0 h hd] at hr
        exact ih (a + 1) r hr

/-- A thrown poll-loop message `m` is attributable to the outcome of one
particular poll attempt: either the poll call itself threw `m`, or the
attempt returned a done operation whose reported error message is `m`. -/
def pollErrorSource (o : PollOutcome) (m : String) : Prop :=
  o = .failure m ∨
    ∃ r e, o = .result r ∧ r.done = true ∧ r.error = some e ∧ e.message = m

theorem pollGo_error_source (polls : Nat → PollOutcome) (op : String)
    (iv maxA : Nat) :
    ∀ fuel a m, (pollGo polls op iv maxA a fuel).result = .error m →
      m = timeoutMessage ∨ ∃ k, a + 1 ≤ k ∧ k ≤ a + fuel ∧ pollErrorSource (polls k) m := by
  intro fuel
  induction fuel with
  | zero => intro a m hm; simp [pollGo_zero] at hm; exact Or.inl hm.symm
  | succ fuel ih =>
    intro a m hr
    cases h : polls (a + 1) with
    | failure msg =>
      cases hm : strOccurs msg statusCheckMarker with
      | true =>
        rw [pollGo_failure_swallow polls op iv maxA a fuel msg h hm] at hr
        rcases ih (a + 1) m hr with h1 | ⟨k, hk1, hk2, hk3⟩
        · exact Or.inl h1
        · exact Or.inr ⟨k, by omega, by omega, hk3⟩
      | false =>
        rw [pollGo_failure_rethrow polls op iv maxA a fuel msg h hm] at hr
        simp at hr
        exact Or.inr ⟨a + 1, le_rfl, by omega, Or.inl (hr ▸ h)⟩
    | result r0 =>
      cases hd : r0.done with
      | true =>
        cases he : r0.error with
        | some e =>
          cases hm : strOccurs e.message statusCheckMarker with
          | true =>
            rw [pollGo_done_error_swallow polls op iv maxA a fuel r0 e h hd he hm] at hr
            rcases ih (a + 1) m hr with h1 | ⟨k, hk1, hk2, hk3⟩
            · exact Or.inl h1
            · exact Or.inr ⟨k, by omega, by omega, hk3⟩
          | false =>
            rw [pollGo_done_error_rethrow polls op iv maxA a fuel r0 e h hd he hm] at hr
            simp at hr
            exact Or.inr ⟨a + 1, le_rfl, by omega,
              Or.inr ⟨r0, e, h, hd, he, hr⟩⟩
        | none =>
          rw [pollGo_done_ok polls op iv maxA a fuel r0 h hd he] at hr
          simp at hr
      | false =>
        rw [pollGo_notDone polls op iv maxA a fuel r0 h hd] at hr
        rcases ih (a + 1) m hr with h1 | ⟨k, hk1, hk2, hk3⟩
        · exact Or.inl h1
        · exact Or.inr ⟨k, by omega, by omega, hk3⟩

/-- A poll outcome after which the loop necessarily keeps waiting: a
swallowed transient failure, or an operation state that is not done. -/
def neverDoneAt (o : PollOutcome) : Prop :=
  match o with
  | .failure m => strOccurs m statusCheckMarker = true
  | .result r => r.done = false

theorem pollGo_timeout (polls : Nat → PollOutcome) (op : String)
    (iv maxA : Nat) :
    ∀ fuel a, (∀ k, a + 1 ≤ k → k ≤ a + fuel → neverDoneAt (polls k)) →
      (pollGo polls op iv maxA a fuel).result = .error timeoutMessage := by
  intro fuel
  induction fuel with
  | zero => intro a _; simp [pollGo_zero]
  | succ fuel ih =>
    intro a hall
    have h1 := hall (a + 1) le_rfl (by omega)
    cases h : polls (a + 1) with
    | failure msg =>
      have hm : strOccurs msg statusCheckMarker = true := by
        simpa [neverDoneAt, h] using h1
      rw [pollGo_failure_swallow polls op iv maxA a fuel msg h hm]
      exact ih (a + 1) (fun k hk1 hk2 => hall k (by omega) (by omega))
    | result r0 =>
      have hd : r0.done = false := by simpa [neverDoneAt, h] using h1
      rw [pollGo_notDone polls op iv maxA a fuel r0 h hd]
      exact ih (a + 1) (fun k hk1 hk2 => hall k (by omega) (by omega))

/-! ## String-prefix helper lemmas -/

theorem take_length_append {α : Type} (l₁ l₂ : List α) :
    (l₁ ++ l₂).take l₁.length = l₁ := by
  induction l₁ with
  | nil => simp
  | cons a t ih => simp [ih]

theorem strStartsWith_iff (s p : String) :
    strStartsWith s p = true ↔ s.data.take p.data.length = p.data := by
  simp [strStartsWith]

theorem strStartsWith_append (p rest : String) :
    strStartsWith (p ++ rest) p = true := by
  rw [strStartsWith_iff]
  have h : (p ++ rest).data = p.data ++ rest.data := rfl
  rw [h, take_length_append]

theorem strStartsWith_head (s p : String) (c : Char) (cs : List Char)
    (hp : p.data = c :: cs) (h : strStartsWith s p = true) :
    ∃ t, s.data = c :: t := by
  rw [strStartsWith_iff, hp] at h
  rcases hs : s.data with _ | ⟨d, t⟩
  · rw [hs] at h; simp at h
  · rw [hs, List.length_cons, List.take_succ_cons] at h
    injection h with h1 h2
    exact ⟨t, by rw [h1]⟩

theorem startsWith_disjoint (s p q : String) (cp cq : Char)
    {ps qs : List Char} (hp : p.data = cp :: ps) (hq : q.data = cq :: qs)
    (hne : cp ≠ cq) (h : strStartsWith s p = true) :
    strStartsWith s q = false := by
  obtain ⟨t, ht⟩ := strStartsWith_head s p cp ps hp h
  cases hq2 : strStartsWith s q with
  | false => rfl
  | true =>
    obtain ⟨t2, ht2⟩ := strStartsWith_head s q cq qs hq hq2
    rw [ht] at ht2
    injection ht2 with h1 _
    exact absurd h1 hne

theorem dataStr_not_blob (s : String) (h : strStartsWith s "data:" = true) :
    strStartsWith s "blob:" = false :=
  startsWith_disjoint s "data:" "blob:" 'd' 'b' rfl rfl (by decide) h

theorem blobStr_not_data (s : String) (h : strStartsWith s "blob:" = true) :
    strStartsWith s "data:" = false :=
  startsWith_disjoint s "blob:" "data:" 'b' 'd' rfl rfl (by decide) h

/-- The test `url.startsWith('http://') || url.startsWith('https://')`
used by `base64ToBlobUrl` (plain portable HTTP(S) references). -/
def isHttpUrl (s : String) : Bool :=
  strStartsWith s "http://" || strStartsWith s "https://"

theorem httpUrl_head (s : String) (h : isHttpUrl s = true) :
    ∃ t, s.data = 'h' :: t := by
  rcases Bool.or_eq_true_iff.mp h with h1 | h1
  · exact strStartsWith_head s "http://" 'h' _ rfl h1
  · exact strStartsWith_head s "https://" 'h' _ rfl h1

theorem httpUrl_not_data (s : String) (h : isHttpUrl s = true) :
    strStartsWith s "data:" = false := by
  obtain ⟨t, ht⟩ := httpUrl_head s h
  cases h2 : strStartsWith s "data:" with
  | false => rfl
  | true =>
    obtain ⟨t2, ht2⟩ := strStartsWith_head s "data:" 'd' _ rfl h2
    rw [ht] at ht2
    injection ht2 with h1 _
    exact absurd h1 (by decide)

theorem httpUrl_not_blob (s : String) (h : isHttpUrl s = true) :
    strStartsWith s "blob:" = false := by
  obtain ⟨t, ht⟩ := httpUrl_head s h
  cases h2 : strStartsWith s "blob:" with
  | false => rfl
  | true =>
    obtain ⟨t2, ht2⟩ := strStartsWith_head s "blob:" 'b' _ rfl h2
    rw [ht] at ht2
    injection ht2 with h1 _
    exact absurd h1 (by decide)

theorem httpUrl_ne_empty (s : String) (h : isHttpUrl s = true) : s ≠ "" := by
  obtain ⟨t, ht⟩ := httpUrl_head s h
  intro hs
  rw [hs] at ht
  simp at ht

/-! ## Option-truthiness helper lemmas for the locator probes -/

/-- Normalization of a probe value: `none` for both `undefined` and `''`,
the locator otherwise ("the shape yields a non-empty locator"). -/
def probeNonEmpty (o : Option String) : Option String :=
  match o with
  | none => none
  | some s => if s = "" then none else some s

theorem probeNonEmpty_some (o : Option String) (u : String)
    (h : probeNonEmpty o = some u) : o = some u ∧ u ≠ "" := by
  cases o with
  | none => exact absurd h (by simp [probeNonEmpty])
  | some s =>
    by_cases hs : s = ""
    · simp [probeNonEmpty, hs] at h
    · simp [probeNonEmpty, hs] at h
      exact ⟨by rw [h], h ▸ hs⟩

theorem probeNonEmpty_falsy (o : Option String) (h : probeNonEmpty o = none) :
    strTruthy o = false := by
  cases o with
  | none => rfl
  | some s =>
    by_cases hs : s = ""
    · simp [strTruthy, hs]
    · simp [probeNonEmpty, hs] at h

theorem jsOrStr_of_some (o b : Option String) (u : String)
    (ho : o = some u) (hu : u ≠ "") : jsOrStr o b = some u := by
  simp [jsOrStr, strTruthy, ho, hu]

theorem jsOrStr_of_falsy (o b : Option String) (h : strTruthy o = false) :
    jsOrStr o b = b := by
  simp [jsOrStr, h]

/-! ## Claim C1 -/

/-- C1 (counterexample): on the spec's own scenario stub (submit returns
`op1`, first poll not done, second poll done with a `generatedVideos`
payload, download succeeds), the orchestrator does NOT emit statuses in
the order `generating, polling, polling, downloading, completed`: the
poll loop emits an extra `completed` status before the `downloading` one,
so the actual order is
`generating, polling, polling, completed, downloading, completed`. -/
theorem c1_counterexample :
    (generateVideoComplete stubScenario).1.map VideoGenerationStatus.status ≠
      [.generating, .polling, .polling, .downloading, .completed] ∧
    (generateVideoComplete stubScenario).1.map VideoGenerationStatus.status =
      [.generating, .polling, .polling, .completed, .downloading, .completed] := by
  exact ⟨by decide, by decide⟩

/-- C1 (amended): for every stub behaving as in the scenario (submit
returns an operation name, first poll reports not done, second poll
reports done with a result payload yielding a locator, download serves
the bytes), the emitted status kinds are exactly
`generating, polling, polling, completed, downloading, completed` (the
poll loop emits `completed` as soon as the operation is done, before the
`downloading` stage), the flow resolves with exactly the downloaded
bytes, and `generateVideoForShot` stores exactly those bytes under
`video_<index>`. -/
theorem c1_amended (stub : RemoteStub) (op u : String)
    (r1 r2 : OperationResponse) (bytes : List Nat)
    (hs : stub.submit = .ok op)
    (h1 : stub.polls 1 = .result r1) (hd1 : r1.done = false)
    (h2 : stub.polls 2 = .result r2) (hd2 : r2.done = true) (he2 : r2.error = none)
    (hu : extractVideoUri r2 = some u)
    (hdl : stub.download u = .ok bytes) :
    (generateVideoComplete stub).1.map VideoGenerationStatus.status =
      [.generating, .polling, .polling, .completed, .downloading, .completed] ∧
    (generateVideoComplete stub).2 = .ok bytes ∧
    (∀ (index : Nat) (inp : ShotInputs) (env : LocalStoreEnv),
      ¬ (inp.prompt = none ∧ inp.startImage = none) → ¬ inp.apiKey = "" →
      env.setBlobVideo = .ok () →
      ("video_" ++ toString index, bytes) ∈
        (generateVideoForShot index inp env stub).blobWrites) := by
  have e0 : pollVideoGeneration stub.polls op 5000 60 =
      pollGo stub.polls op 5000 60 0 (59 + 1) := rfl
  have e1 : pollGo stub.polls op 5000 60 (0 + 1) 59 =
      pollGo stub.polls op 5000 60 (0 + 1) (58 + 1) := rfl
  have hpoll : pollVideoGeneration stub.polls op 5000 60 =
      ⟨[⟨.polling, progressPercent (0 + 1) 60, pollingMessage (0 + 1) 60, some op⟩,
        ⟨.completed, 100, pollDoneMessage, some op⟩], .ok r2, 0 + 1 + 1, [5000]⟩ := by
    rw [e0, pollGo_notDone stub.polls op 5000 60 0 59 r1 h1 hd1, e1,
      pollGo_done_ok stub.polls op 5000 60 (0 + 1) 58 r2 h2 hd2 he2]
  have hg : generateVideoComplete stub =
      ([⟨.generating, 5, "비디오 생성 요청 중...", none⟩] ++
        [⟨.polling, 10, "생성 시작됨. 대기 중...", some op⟩] ++
        [⟨.polling, progressPercent (0 + 1) 60, pollingMessage (0 + 1) 60, some op⟩,
         ⟨.completed, 100, pollDoneMessage, some op⟩] ++
        [⟨.downloading, 90, "비디오 다운로드 중...", some op⟩] ++
        [⟨.completed, 100, "완료!", some op⟩], .ok bytes) := by
    simp only [generateVideoComplete, hs, hpoll, hu, hdl]
  refine ⟨?_, ?_, ?_⟩
  · rw [hg]; simp
  · rw [hg]
  · intro index inp env hpi hk henv
    unfold generateVideoForShot
    rw [if_neg hpi, if_neg hk]
    simp only [hg, henv]
    exact List.mem_cons_self _ _

/-- C1 (witness): the amended theorem applied to the concrete scenario
stub. -/
theorem c1_witness :
    (generateVideoComplete stubScenario).2 = .ok [1, 2, 3, 4] ∧
    ("video_" ++ toString 0, [1, 2, 3, 4]) ∈
      (generateVideoForShot 0 inpPrompt envOk stubScenario).blobWrites := by
  have h := c1_amended stubScenario "op1" "https://x/y.mp4" opNotDone opDoneCat
    [1, 2, 3, 4] rfl rfl rfl rfl rfl rfl rfl rfl
  exact ⟨h.2.1, h.2.2 0 inpPrompt envOk (by decide) (by decide) rfl⟩

/-! ## Claim C2 -/

/-- C2 (counterexample): on the scenario stub the consecutive `polling`
progress values are `10` (the status emitted right after submit) followed
by `1` (the first loop emission, `min(round(1/60·80), 80) = 1`): progress
regresses between two consecutive `polling` statuses of a single job. -/
theorem c2_counterexample :
    pollingProgressList (generateVideoComplete stubScenario).1 = [10, 1] ∧
    ¬ List.Pairwise (· ≤ ·)
      (pollingProgressList (generateVideoComplete stubScenario).1) := by
  exact ⟨by decide, by decide⟩

/-- C2 (amended): within the statuses emitted by the polling loop itself
(`pollVideoGeneration`), the progress values of `polling` statuses are
non-decreasing; the regression of the original claim arises only from
the initial progress-10 `polling` status that `generateVideoComplete`
emits after submit, before the loop's first (smaller) value. -/
theorem c2_amended (polls : Nat → PollOutcome) (op : String) (iv maxA : Nat) :
    List.Pairwise (· ≤ ·)
      (pollingProgressList (pollVideoGeneration polls op iv maxA).statuses) :=
  (pollGo_polling_pairwise polls op iv maxA maxA 0).2

/-! ## Claim C3 -/

/-- A poll whose first attempt fails with a provider-supplied message
not containing the status-check marker, and whose second attempt would
have reported a successfully completed operation. -/
def pollsQuota : Nat → PollOutcome :=
  fun k => if k = 1 then .failure "Quota exceeded" else .result opDoneCat

/-- C3 (counterexample): a failure of the poll request itself is NOT
always swallowed: when `checkVideoOperation` throws a provider-supplied
message (here `Quota exceeded`, which does not contain the marker
`'상태 확인'`), the loop rethrows it after a single attempt and the job
aborts — even though the very next poll would have returned the
completed operation. -/
theorem c3_counterexample :
    pollsQuota 1 = .failure "Quota exceeded" ∧
    pollsQuota 2 = .result opDoneCat ∧
    opDoneCat.done = true ∧ opDoneCat.error = none ∧
    strOccurs "Quota exceeded" statusCheckMarker = false ∧
    pollVideoGeneration pollsQuota "op1" 10 5 = ⟨[], .error "Quota exceeded", 1, []⟩ := by
  exact ⟨rfl, rfl, rfl, rfl, by decide, rfl⟩

/-- C3 (amended): the swallow-versus-rethrow decision is made on the
error message, not on the kind of failure: a poll-request failure is
swallowed and retried after the same fixed delay only when its message
contains `'상태 확인'` (the client's own fallback marker for status-check
HTTP failures that carry no provider message); any other poll-request
failure is rethrown and terminates the job after that attempt; and an
operation reporting done with an error emits an `error` status carrying
the remote message and rethrows it, terminating the job, whenever that
message does not itself contain the marker. -/
theorem c3_amended (polls : Nat → PollOutcome) (op : String) (iv maxA : Nat) :
    (∀ m, polls 1 = .failure m → strOccurs m statusCheckMarker = true →
      pollVideoGeneration polls op iv (maxA + 1) =
        ⟨(pollGo polls op iv (maxA + 1) 1 maxA).statuses,
         (pollGo polls op iv (maxA + 1) 1 maxA).result,
         (pollGo polls op iv (maxA + 1) 1 maxA).attempts,
         iv :: (pollGo polls op iv (maxA + 1) 1 maxA).sleeps⟩) ∧
    (∀ m, polls 1 = .failure m → strOccurs m statusCheckMarker = false →
      pollVideoGeneration polls op iv (maxA + 1) = ⟨[], .error m, 1, []⟩) ∧
    (∀ r e, polls 1 = .result r → r.done = true → r.error = some e →
      strOccurs e.message statusCheckMarker = false →
      pollVideoGeneration polls op iv (maxA + 1) =
        ⟨[⟨.error, 0, e.message, some op⟩], .error e.message, 1, []⟩) := by
  refine ⟨fun m h hm => ?_, fun m h hm => ?_, fun r e h hd he hm => ?_⟩
  · exact pollGo_failure_swallow polls op iv (maxA + 1) 0 maxA m h hm
  · exact pollGo_failure_rethrow polls op iv (maxA + 1) 0 maxA m h hm
  · exact pollGo_done_error_rethrow polls op iv (maxA + 1) 0 maxA r e h hd he hm

/-- A poll whose first attempt fails with the client's own status-check
fallback message (which contains the marker). -/
def pollsTransient : Nat → PollOutcome :=
  fun k => if k = 1 then .failure "상태 확인 오류: 500" else .result opDoneCat

/-- C3 (witness): the amended theorem applied to a concrete
marker-containing first failure: the loop sleeps and continues with the
remaining attempts. -/
theorem c3_witness :
    pollVideoGeneration pollsTransient "op1" 10 (2 + 1) =
      ⟨(pollGo pollsTransient "op1" 10 (2 + 1) 1 2).statuses,
       (pollGo pollsTransient "op1" 10 (2 + 1) 1 2).result,
       (pollGo pollsTransient "op1" 10 (2 + 1) 1 2).attempts,
       10 :: (pollGo pollsTransient "op1" 10 (2 + 1) 1 2).sleeps⟩ :=
  (c3_amended pollsTransient "op1" 10 2).1 "상태 확인 오류: 500" rfl (by decide)

/-! ## Claim C4 -/

/-- C4 (confirmed): for every configuration and remote behaviour the
polling loop performs at most `maxAttempts` poll attempts; its result is
either a completed (`done`) operation or a thrown error; every thrown
error is either the timeout message or attributable to the outcome of
one of the at most `maxAttempts` attempts (a rethrown poll failure or a
reported operation error); if no attempt within the ceiling is terminal,
the loop throws exactly the (non-empty) timeout message. -/
theorem c4_confirmed (polls : Nat → PollOutcome) (op : String) (iv maxA : Nat) :
    (pollVideoGeneration polls op iv maxA).attempts ≤ maxA ∧
    ((∃ r, (pollVideoGeneration polls op iv maxA).result = .ok r ∧ r.done = true) ∨
     (∃ m, (pollVideoGeneration polls op iv maxA).result = .error m)) ∧
    (∀ m, (pollVideoGeneration polls op iv maxA).result = .error m →
      m = timeoutMessage ∨ ∃ k, 1 ≤ k ∧ k ≤ maxA ∧ pollErrorSource (polls k) m) ∧
    ((∀ k, 1 ≤ k → k ≤ maxA → neverDoneAt (polls k)) →
      (pollVideoGeneration polls op iv maxA).result = .error timeoutMessage) ∧
    timeoutMessage ≠ "" := by
  refine ⟨?_, ?_, ?_, ?_, by decide⟩
  · simpa using pollGo_attempts_le polls op iv maxA maxA 0
  · cases hr : (pollVideoGeneration polls op iv maxA).result with
    | ok r => exact Or.inl ⟨r, rfl, pollGo_ok_done polls op iv maxA maxA 0 r hr⟩
    | error m => exact Or.inr ⟨m, rfl⟩
  · intro m hm
    simpa using pollGo_error_source polls op iv maxA maxA 0 m hm
  · intro hall
    exact pollGo_timeout polls op iv maxA maxA 0
      (fun k h1 h2 => hall k (by omega) (by omega))

/-- A stub that never reports done. -/
def pollsNever : Nat → PollOutcome := fun _ => .result opNotDone

/-- C4 (witness): the spec's timeout scenario — attempt ceiling 2,
interval 10, a stub that never reports done — ends with the timeout
error. -/
theorem c4_witness :
    (pollVideoGeneration pollsNever "op1" 10 2).result = .error timeoutMessage ∧
    timeoutMessage ≠ "" :=
  ⟨(c4_confirmed pollsNever "op1" 10 2).2.2.2.1 (fun _ _ _ => rfl),
   (c4_confirmed pollsNever "op1" 10 2).2.2.2.2⟩

/-! ## Claim C5 -/

/-- C5 (confirmed): the result locator of a completed operation is
extracted by probing the four nested shapes in priority order — the
first probe yielding a non-empty locator wins — and when no probe yields
a locator the flow fails with an error message carrying the raw payload
dump truncated to 500 characters. -/
theorem c5_confirmed (r : OperationResponse) (u : String) :
    (probeNonEmpty (probe1 r) = some u → extractVideoUri r = some u) ∧
    (probeNonEmpty (probe1 r) = none → probeNonEmpty (probe2 r) = some u →
      extractVideoUri r = some u) ∧
    (probeNonEmpty (probe1 r) = none → probeNonEmpty (probe2 r) = none →
      probeNonEmpty (probe3 r) = some u → extractVideoUri r = some u) ∧
    (probeNonEmpty (probe1 r) = none → probeNonEmpty (probe2 r) = none →
      probeNonEmpty (probe3 r) = none → probeNonEmpty (probe4 r) = some u →
      extractVideoUri r = some u) ∧
    (probeNonEmpty (probe1 r) = none → probeNonEmpty (probe2 r) = none →
      probeNonEmpty (probe3 r) = none → probeNonEmpty (probe4 r) = none →
      extractVideoUri r = none) ∧
    (∀ (stub : RemoteStub) (op : String),
      stub.submit = .ok op → stub.polls 1 = .result r → r.done = true →
      r.error = none → extractVideoUri r = none →
      (generateVideoComplete stub).2 = .error (missingUriMessage r)) ∧
    (missingUriMessage r).length ≤
      "비디오 URI를 받지 못했습니다. 응답: ".length + 500 := by
  refine ⟨?_, ?_, ?_, ?_, ?_, ?_, ?_⟩
  · intro h1
    obtain ⟨ho, hu⟩ := probeNonEmpty_some _ _ h1
    simp [extractVideoUri, videoUriExpr, jsOrStr_of_some _ _ u ho hu, hu]
  · intro h1 h2
    obtain ⟨ho, hu⟩ := probeNonEmpty_some _ _ h2
    simp [extractVideoUri, videoUriExpr, jsOrStr_of_falsy _ _ (probeNonEmpty_falsy _ h1),
      jsOrStr_of_some _ _ u ho hu, hu]
  · intro h1 h2 h3
    obtain ⟨ho, hu⟩ := probeNonEmpty_some _ _ h3
    simp [extractVideoUri, videoUriExpr, jsOrStr_of_falsy _ _ (probeNonEmpty_falsy _ h1),
      jsOrStr_of_falsy _ _ (probeNonEmpty_falsy _ h2), jsOrStr_of_some _ _ u ho hu, hu]
  · intro h1 h2 h3 h4
    obtain ⟨ho, hu⟩ := probeNonEmpty_some _ _ h4
    simp [extractVideoUri, videoUriExpr, jsOrStr_of_falsy _ _ (probeNonEmpty_falsy _ h1),
      jsOrStr_of_falsy _ _ (probeNonEmpty_falsy _ h2),
      jsOrStr_of_falsy _ _ (probeNonEmpty_falsy _ h3), ho, hu]
  · intro h1 h2 h3 h4
    have hv : videoUriExpr r = probe4 r := by
      simp [videoUriExpr, jsOrStr_of_falsy _ _ (probeNonEmpty_falsy _ h1),
        jsOrStr_of_falsy _ _ (probeNonEmpty_falsy _ h2),
        jsOrStr_of_falsy _ _ (probeNonEmpty_falsy _ h3)]
    rw [extractVideoUri, hv]
    cases hp : probe4 r with
    | none => rfl
    | some s =>
      rw [hp] at h4
      by_cases hs : s = ""
      · simp [hs]
      · simp [probeNonEmpty, hs] at h4
  · intro stub op hsub h1 hd he hext
    have e0 : pollVideoGeneration stub.polls op 5000 60 =
        pollGo stub.polls op 5000 60 0 (59 + 1) := rfl
    have hpoll : pollVideoGeneration stub.polls op 5000 60 =
        ⟨[⟨.completed, 100, pollDoneMessage, some op⟩], .ok r, 0 + 1, []⟩ := by
      rw [e0, pollGo_done_ok stub.polls op 5000 60 0 59 r h1 hd he]
    simp only [generateVideoComplete, hsub, hpoll, hext]
  · show (missingUriMessage r).data.length ≤ _
    have h1 : (missingUriMessage r).data =
        "비디오 URI를 받지 못했습니다. 응답: ".data ++ (stringifyOperation r).data.take 500 := rfl
    rw [h1, List.length_append]
    exact Nat.add_le_add_left (List.length_take_le _ _) _

/-- A completed payload whose first probe yields the empty string and
whose second probe yields a locator: the second shape wins. -/
def rProbeSecond : OperationResponse :=
  ⟨"op", true, none,
    some ⟨some ⟨some [⟨some ⟨some ""⟩⟩]⟩, some [⟨some ⟨some "https://x"⟩⟩], none⟩, none⟩

/-- C5 (witness): the priority theorem applied to a concrete payload in
which the first shape is present but empty and the second carries the
locator. -/
theorem c5_witness : extractVideoUri rProbeSecond = some "https://x" :=
  (c5_confirmed rProbeSecond "https://x").2.1 rfl rfl

/-! ## Claim C6 -/

theorem applyJobEvents_updates (l : List VideoGenerationStatus) :
    ∀ init, applyJobEvents init (l.map .statusUpdate) = l.getLastD init := by
  induction l with
  | nil => intro init; rfl
  | cons a t ih =>
    intro init
    rw [List.map_cons, applyJobEvents, List.foldl_cons]
    exact (ih a).trans (List.getLastD_cons init a t).symm

/-- C6 (counterexample): cancellation does not stop the in-flight job
from updating the status map.  On the concrete scenario run, cancelling
after the first two status updates leaves the remaining poll-derived
updates to be applied — the `onProgress` callback of
`generateVideoForShot` keeps writing to the map (the `abortControllersRef`
is never used) — so the job's final local status is `completed`, not the
`idle` state the cancel wrote. -/
theorem c6_counterexample :
    (applyJobEvents cancelStatus
      (interruptedRun (generateVideoForShot 0 inpPrompt envOk stubScenario).statusUpdates
        2)).status = .completed ∧
    applyJobEvents cancelStatus
      (interruptedRun (generateVideoForShot 0 inpPrompt envOk stubScenario).statusUpdates 2)
      ≠ cancelStatus := by
  exact ⟨by decide, by decide⟩

/-- C6 (amended): `cancelVideoGeneration` resets the cancelled shot's
local status to idle with progress 0 (and touches no other shot's
status); since its body involves no remote call, it cannot abort the
remote job.  However, it does not stop the in-flight run from consuming
poll results: the status map is last-writer-wins, so after a cancel the
job's entry equals the last of the run's remaining status updates — it
stays idle only when no update follows the cancel. -/
theorem c6_amended (m : Nat → VideoGenerationStatus) (index : Nat)
    (init : VideoGenerationStatus) (run : List VideoGenerationStatus) (k : Nat) :
    cancelVideoGeneration m index index = ⟨.idle, 0, "", none⟩ ∧
    (∀ j, ¬ j = index → cancelVideoGeneration m index j = m j) ∧
    applyJobEvents init (interruptedRun run k) = (run.drop k).getLastD cancelStatus := by
  refine ⟨by simp [cancelVideoGeneration, cancelStatus],
    fun j hj => by simp [cancelVideoGeneration, hj], ?_⟩
  unfold interruptedRun applyJobEvents
  rw [List.foldl_append, List.foldl_append]
  have hmid : List.foldl applyJobEvent
      (List.foldl applyJobEvent init ((run.take k).map JobEvent.statusUpdate))
      [JobEvent.cancel] = cancelStatus := rfl
  rw [hmid]
  exact applyJobEvents_updates (run.drop k) cancelStatus

/-- C6 (witness): the amended theorem at concrete inputs — the reset and
isolation clauses, and the fact that cancelling after the very last
update of the scenario run does leave the status idle. -/
theorem c6_witness :
    cancelVideoGeneration (fun _ => preparingStatus) 3 3 = ⟨.idle, 0, "", none⟩ ∧
    cancelVideoGeneration (fun _ => preparingStatus) 3 5 = preparingStatus ∧
    applyJobEvents cancelStatus
      (interruptedRun (generateVideoForShot 0 inpPrompt envOk stubScenario).statusUpdates 8)
      = cancelStatus := by
  have h := c6_amended (fun _ => preparingStatus) 3 cancelStatus
    (generateVideoForShot 0 inpPrompt envOk stubScenario).statusUpdates 8
  exact ⟨h.1, h.2.1 5 (by decide), h.2.2.trans (by decide)⟩

/-! ## Claim C7 -/

theorem strStartsWith_append3 (p a b c : String) :
    strStartsWith (p ++ a ++ b ++ c) p = true := by
  rw [String.append_assoc (p ++ a) b c, String.append_assoc p a (b ++ c)]
  exact strStartsWith_append p _

/-- C7 (confirmed): the serialized backup document never contains a
session-local `blob:` reference: every entry of its `videoBase64` map is
free of the `blob:` scheme, and every `blob:` reference of the working
set is either re-encoded into a `data:` URI (when conversion succeeds)
or omitted from the document (the `filterMap` drops failed
conversions). -/
theorem c7_confirmed (env : BackupEnv) (data : StoryboardData)
    (images videoUrls : List (Nat × String)) :
    (∀ kv ∈ (handleBackupData env data images videoUrls).videoBase64,
      strStartsWith kv.2 "blob:" = false) ∧
    (∀ kv ∈ (handleBackupData env data images videoUrls).videoBase64,
      ∃ src ∈ videoUrls, src.1 = kv.1 ∧ blobUrlToBase64 env src.2 = some kv.2) ∧
    (∀ u v, strStartsWith u "blob:" = true → blobUrlToBase64 env u = some v →
      strStartsWith v "data:" = true) := by
  have part2 : ∀ u v, strStartsWith u "blob:" = true →
      blobUrlToBase64 env u = some v → strStartsWith v "data:" = true := by
    intro u v hu hconv
    simp only [blobUrlToBase64, blobStr_not_data u hu, hu, Bool.false_eq_true,
      if_false, if_true] at hconv
    cases hf : env.fetchBlob u with
    | none => rw [hf] at hconv; simp at hconv
    | some p =>
      obtain ⟨mime, bytes⟩ := p
      rw [hf] at hconv
      simp only [Option.some.injEq] at hconv
      rw [← hconv]
      exact strStartsWith_append3 "data:" mime ";base64," (base64Encode bytes)
  have origin : ∀ kv ∈ (handleBackupData env data images videoUrls).videoBase64,
      ∃ src ∈ videoUrls, src.1 = kv.1 ∧ blobUrlToBase64 env src.2 = some kv.2 := by
    intro kv hkv
    unfold handleBackupData at hkv
    by_cases hlen : videoUrls.length = 0
    · rw [if_pos hlen] at hkv
      simp at hkv
    · rw [if_neg hlen] at hkv
      dsimp only at hkv
      obtain ⟨a, ha, hfa⟩ := List.mem_filterMap.mp hkv
      obtain ⟨b, hb, hab⟩ := Option.map_eq_some'.mp hfa
      refine ⟨a, ha, ?_, ?_⟩
      · rw [← hab]
      · rw [hb, ← hab]
  refine ⟨?_, origin, part2⟩
  intro kv hkv
  obtain ⟨a, ha, ha1, hb⟩ := origin kv hkv
  by_cases h1 : strStartsWith a.2 "data:" = true
  · have : kv.2 = a.2 := by
      simp only [blobUrlToBase64, h1, if_true, Option.some.injEq] at hb
      exact hb.symm
    rw [this]
    exact dataStr_not_blob a.2 h1
  · by_cases h2 : strStartsWith a.2 "blob:" = true
    · exact dataStr_not_blob kv.2 (part2 a.2 kv.2 h2 hb)
    · have : kv.2 = a.2 := by
        simp only [blobUrlToBase64, h1, h2, Bool.false_eq_true, if_false,
          Option.some.injEq] at hb
        exact hb.symm
      rw [this]
      exact Bool.not_eq_true _ ▸ h2

/-- C7 (witness): the document-level invariant applied to a concrete
working set holding one `blob:` reference whose conversion succeeds. -/
theorem c7_witness :
    strStartsWith "data:video/mp4;base64,AAE=" "blob:" = false :=
  (c7_confirmed benvOk dataFixture [] [(0, "blob:abc")]).1
    (0, "data:video/mp4;base64,AAE=") (by decide)

/-! ## Claim C8 -/

/-- C8 (confirmed): for a working set whose video references are all
plain HTTP(S) URLs, serialization writes them to the document unchanged,
both per-entry conversions are the identity on HTTP(S) URLs, and
restoring the serialized document yields exactly the original references
(and the original image map) back. -/
theorem c8_confirmed (benv : BackupEnv) (renv : RestoreEnv) (data : StoryboardData)
    (images videos : List (Nat × String)) (sb : List StoryboardShot)
    (hall : ∀ kv ∈ videos, isHttpUrl kv.2 = true) :
    (handleBackupData benv data images videos).videoBase64 = videos ∧
    (∀ u, isHttpUrl u = true →
      blobUrlToBase64 benv u = some u ∧ base64ToBlobUrl renv u = u) ∧
    (¬ videos = [] →
      handleRestoreData renv
        ⟨some ⟨some sb⟩, some images,
          some (handleBackupData benv data images videos).videoBase64, none⟩ =
        .ok ⟨some images, some videos, videos.length⟩) := by
  have hconv : ∀ u, isHttpUrl u = true → blobUrlToBase64 benv u = some u := by
    intro u hu
    simp [blobUrlToBase64, httpUrl_not_data u hu, httpUrl_not_blob u hu]
  have hconv2 : ∀ u, isHttpUrl u = true → base64ToBlobUrl renv u = u := by
    intro u hu
    simp [base64ToBlobUrl, httpUrl_not_blob u hu,
      (show (strStartsWith u "http://" || strStartsWith u "https://") = true from hu)]
  have hfm : ∀ (l : List (Nat × String)), (∀ kv ∈ l, isHttpUrl kv.2 = true) →
      l.filterMap (fun kv => (blobUrlToBase64 benv kv.2).map (fun b => (kv.1, b))) = l := by
    intro l hl
    induction l with
    | nil => rfl
    | cons a t ih =>
      rw [List.filterMap_cons, hconv a.2 (hl a (List.mem_cons_self a t))]
      rw [ih (fun kv hkv => hl kv (List.mem_cons_of_mem a hkv))]
      simp
  have hser : (handleBackupData benv data images videos).videoBase64 = videos := by
    unfold handleBackupData
    by_cases hlen : videos.length = 0
    · rw [if_pos hlen]
      exact (List.length_eq_zero.mp hlen).symm
    · rw [if_neg hlen]
      exact hfm videos hall
  refine ⟨hser, fun u hu => ⟨hconv u hu, hconv2 u hu⟩, ?_⟩
  intro hne
  rw [hser]
  have hfm2 : ∀ (l : List (Nat × String)), (∀ kv ∈ l, isHttpUrl kv.2 = true) →
      l.filterMap (fun kv =>
        let b := base64ToBlobUrl renv kv.2
        if b = "" then none else some (kv.1, b)) = l := by
    intro l hl
    induction l with
    | nil => rfl
    | cons a t ih =>
      have hu := hl a (List.mem_cons_self a t)
      rw [List.filterMap_cons]
      dsimp only
      rw [hconv2 a.2 hu, if_neg (httpUrl_ne_empty a.2 hu)]
      rw [ih (fun kv hkv => hl kv (List.mem_cons_of_mem a hkv))]
  have hlen : ¬ videos.length = 0 := fun h => hne (List.length_eq_zero.mp h)
  unfold handleRestoreData
  dsimp only
  rw [if_neg hlen, hfm2 videos hall, if_neg hlen]

/-- C8 (witness): the round trip applied to a concrete working set with
one HTTP(S) video reference. -/
theorem c8_witness :
    handleRestoreData renvFixed
      ⟨some ⟨some [shotFixture]⟩, some [(1, "data:image/png;base64,AA==")],
        some (handleBackupData benvOk dataFixture [(1, "data:image/png;base64,AA==")]
          [(0, "https://x/y.mp4")]).videoBase64, none⟩ =
      .ok ⟨some [(1, "data:image/png;base64,AA==")], some [(0, "https://x/y.mp4")], 1⟩ := by
  have h := c8_confirmed benvOk renvFixed dataFixture
    [(1, "data:image/png;base64,AA==")] [(0, "https://x/y.mp4")] [shotFixture] (by decide)
  exact h.2.2 (by decide)

/-! ## Claim C9 -/

/-- C9 (counterexample): a well-formed document whose video mapping is
present only under the legacy `videoUrls` name does NOT restore with an
empty video mapping: the legacy mapping is consumed as the video source
(`backupData.videoBase64 || backupData.videoUrls`) and its restorable
entry is published, so the restored video mapping is non-empty. -/
theorem c9_counterexample :
    handleRestoreData renvFixed
      ⟨some ⟨some [shotFixture]⟩, some [(0, "data:image/png;base64,AA==")], none,
        some [(0, "https://x/y.mp4")]⟩ =
      .ok ⟨some [(0, "data:image/png;base64,AA==")], some [(0, "https://x/y.mp4")], 1⟩ :=
  rfl

/-- C9 (amended): restore of a backup document fails (with no mutation)
whenever the document lacks a storyboard sequence; a well-formed document
whose video mapping is absent under both names restores with the image
mapping and an empty video mapping; and a document carrying only the
legacy `videoUrls` mapping is restored exactly as if that mapping were
`videoBase64` — the legacy entries are converted and published, not
dropped. -/
theorem c9_amended (env : RestoreEnv) (doc : RestoreDocument) :
    (doc.data = none → handleRestoreData env doc = .error invalidBackupMessage) ∧
    (∀ d, doc.data = some d → d.storyboard_sequence = none →
      handleRestoreData env doc = .error invalidBackupMessage) ∧
    (∀ d sb, doc.data = some d → d.storyboard_sequence = some sb →
      doc.videoBase64 = none → doc.videoUrls = none →
      handleRestoreData env doc = .ok ⟨doc.generatedImages, none, 0⟩) ∧
    (doc.videoBase64 = none →
      handleRestoreData env doc =
        handleRestoreData env ⟨doc.data, doc.generatedImages, doc.videoUrls, none⟩) := by
  obtain ⟨dd, gi, vb, vu⟩ := doc
  refine ⟨?_, ?_, ?_, ?_⟩
  · intro h
    rw [show dd = none from h]
    rfl
  · intro d hd hsb
    rw [show dd = some d from hd]
    obtain ⟨sbo⟩ := d
    rw [show sbo = none from hsb]
    rfl
  · intro d sb hd hsb hvb hvu
    rw [show dd = some d from hd]
    obtain ⟨sbo⟩ := d
    rw [show sbo = some sb from hsb]
    rw [show vb = none from hvb, show vu = none from hvu]
    rfl
  · intro hvb
    rw [show vb = none from hvb]
    rcases dd with _ | ⟨_ | sb⟩ <;> rcases vu with _ | m <;> rfl

/-- C9 (witness): the amended theorem applied to the spec's scenario — a
document without any video mapping but with a generated image restores
with a non-empty image mapping and an empty video mapping. -/
theorem c9_witness :
    handleRestoreData renvFixed
      ⟨some ⟨some [shotFixture]⟩, some [(0, "data:image/png;base64,AA==")], none, none⟩ =
      .ok ⟨some [(0, "data:image/png;base64,AA==")], none, 0⟩ :=
  (c9_amended renvFixed
    ⟨some ⟨some [shotFixture]⟩, some [(0, "data:image/png;base64,AA==")], none, none⟩).2.2.1
    ⟨some [shotFixture]⟩ [shotFixture] rfl rfl rfl rfl

/-! ## Claim C10 -/

/-- C10 (counterexample): when the remote operation reports done with an
error whose message is the empty string, the per-shot run terminates in
an `error` status whose message is empty — the emitted error status does
not always carry a non-empty message. -/
theorem c10_counterexample :
    (generateVideoForShot 0 inpPrompt envOk
      ⟨.ok "op1", fun _ => .result ⟨"op1", true, some ⟨13, ""⟩, none, none⟩,
        fun _ => .error "x"⟩).statusUpdates.getLast? =
      some ⟨.error, 0, "", none⟩ := rfl

/-- C10 (amended): if a per-shot run ends in the `error` status, the
caller-visible video URL mapping is not updated for that shot during
that call and no blob-store write succeeds; the mapping update happens
only on the success path (when the pipeline resolved with the binary,
which is then stored under `video_<index>`); and the final error status
carries exactly the underlying failure's message — which equals the
remote error message verbatim and may therefore be empty. -/
theorem c10_amended (index : Nat) (inp : ShotInputs) (env : LocalStoreEnv)
    (stub : RemoteStub) (s : VideoGenerationStatus) :
    ((generateVideoForShot index inp env stub).statusUpdates.getLast? = some s →
      s.status = .error →
      (generateVideoForShot index inp env stub).videoUrlUpdate = none ∧
      (generateVideoForShot index inp env stub).blobWrites = [] ∧
      ∃ e, s = ⟨.error, 0, e, none⟩ ∧
        ((generateVideoComplete stub).2 = .error e ∨ env.setBlobVideo = .error e)) ∧
    (¬ (generateVideoForShot index inp env stub).videoUrlUpdate = none →
      (generateVideoForShot index inp env stub).statusUpdates.getLast? =
        some ⟨.completed, 100, "완료!", none⟩ ∧
      ∃ bytes, (generateVideoComplete stub).2 = .ok bytes ∧
        ("video_" ++ toString index, bytes) ∈
          (generateVideoForShot index inp env stub).blobWrites) := by
  by_cases hpi : inp.prompt = none ∧ inp.startImage = none
  · constructor
    · intro hlast _
      simp [generateVideoForShot, hpi] at hlast
    · intro hup
      simp [generateVideoForShot, hpi] at hup
  · by_cases hk : inp.apiKey = ""
    · constructor
      · intro hlast _
        simp [generateVideoForShot, hpi, hk] at hlast
      · intro hup
        simp [generateVideoForShot, hpi, hk] at hup
    · cases hgv : (generateVideoComplete stub).2 with
      | error e =>
        have hrun : generateVideoForShot index inp env stub =
            ⟨preparingStatus :: ((generateVideoComplete stub).1 ++ [⟨.error, 0, e, none⟩]),
              [], none⟩ := by
          simp only [generateVideoForShot, if_neg hpi, if_neg hk, hgv]
          rfl
        constructor
        · intro hlast hstat
          rw [hrun] at hlast
          dsimp only at hlast
          rw [← List.cons_append, List.getLast?_concat] at hlast
          have hse : s = ⟨.error, 0, e, none⟩ := (Option.some.injEq _ _ ▸ hlast).symm
          exact ⟨by rw [hrun], by rw [hrun], e, hse, Or.inl rfl⟩
        · intro hup
          rw [hrun] at hup
          simp at hup
      | ok bytes =>
        cases henv : env.setBlobVideo with
        | error e2 =>
          have hrun : generateVideoForShot index inp env stub =
              ⟨preparingStatus :: ((generateVideoComplete stub).1 ++ [⟨.error, 0, e2, none⟩]),
                [], none⟩ := by
            simp only [generateVideoForShot, if_neg hpi, if_neg hk, hgv, henv]
            rfl
          constructor
          · intro hlast hstat
            rw [hrun] at hlast
            dsimp only at hlast
            rw [← List.cons_append, List.getLast?_concat] at hlast
            have hse : s = ⟨.error, 0, e2, none⟩ := (Option.some.injEq _ _ ▸ hlast).symm
            exact ⟨by rw [hrun], by rw [hrun], e2, hse, Or.inr rfl⟩
          · intro hup
            rw [hrun] at hup
            simp at hup
        | ok u =>
          have hrun : generateVideoForShot index inp env stub =
              ⟨preparingStatus ::
                  ((generateVideoComplete stub).1 ++ [⟨.completed, 100, "완료!", none⟩]),
                ("video_" ++ toString index, bytes) ::
                  (match env.thumbnail with
                   | .error _ => []
                   | .ok tb =>
                     match env.setBlobThumb with
                     | .error _ => []
                     | .ok _ => [("thumbnail_" ++ toString index, tb)]),
                some env.objectUrl⟩ := by
            simp only [generateVideoForShot, if_neg hpi, if_neg hk, hgv, henv]
            rfl
          constructor
          · intro hlast hstat
            rw [hrun] at hlast
            dsimp only at hlast
            rw [← List.cons_append, List.getLast?_concat] at hlast
            have hse : s = ⟨.completed, 100, "완료!", none⟩ :=
              (Option.some.injEq _ _ ▸ hlast).symm
            rw [hse] at hstat
            simp at hstat
          · intro _
            refine ⟨?_, bytes, rfl, ?_⟩
            · rw [hrun]
              dsimp only
              rw [← List.cons_append, List.getLast?_concat]
            · rw [hrun]
              exact List.mem_cons_self _ _

/-- C10 (witness): the amended theorem applied to a concrete failing
submit: the run ends in `error` and neither the mapping nor the blob
store is touched. -/
theorem c10_witness :
    (generateVideoForShot 0 inpPrompt envOk
      ⟨.error "API 오류: 400", fun _ => .result opNotDone, fun _ => .error "x"⟩).videoUrlUpdate
      = none ∧
    (generateVideoForShot 0 inpPrompt envOk
      ⟨.error "API 오류: 400", fun _ => .result opNotDone, fun _ => .error "x"⟩).blobWrites
      = [] := by
  have h := (c10_amended 0 inpPrompt envOk
    ⟨.error "API 오류: 400", fun _ => .result opNotDone, fun _ => .error "x"⟩
    ⟨.error, 0, "API 오류: 400", none⟩).1 rfl rfl
  exact ⟨h.1, h.2.1⟩

end TbCinema
